import Mathlib

/-!
Shallow embedding of the GD-ROM controller of src/src/guest/gdrom/gdrom.c and
proofs about its protocol state machine, SPI packet processor, sector reader and
PIO/DMA transfer engines.

Modelling conventions:
* C `int`/`uint` fields become `Nat`; 1-bit register bitfields become `Bool`.
* Fatal conditions (`LOG_FATAL`, `CHECK*` macros) make an operation return `none`.
* The payload bytes read from the disc, the response-structure bytes built by the
  `REQ_*`/`GET_*` commands and the persistent hardware-info block are consumed
  opaquely by the controller core: no claim depends on their values, so buffer
  *contents* are tracked only where the control flow inspects them (the 12-byte
  SPI packet written through the data register).  All head/size bookkeeping, the
  register file, the interrupt line and the state machine are modelled in full.
* `holly_raise_interrupt`/`holly_clear_interrupt` on HOLLY_INT_G1GDINT become a
  single level-triggered `intr : Bool` line.
-/

/-- Internal state machine states (enum gd_state in gdrom.c). -/
inductive GdState where
  | readAtaCmd
  | readAtaData
  | readSpiData
  | writeSpiData
  | writeDmaData
  deriving DecidableEq, Repr

/-- Internal state machine events (enum gd_event in gdrom.c). -/
inductive GdEvent where
  | ataCmd
  | pioWrite
  | spiCmd
  | pioRead
  | spiData
  deriving DecidableEq, Repr

/-- Handlers appearing in the gd_transitions table (the C function pointers, as tags). -/
inductive GdHandler where
  | ataCmd
  | pioWrite
  | spiCmd
  | pioRead
  | spiData
  deriving DecidableEq, Repr

/-- Modelled from the spec: the disc collaborator (spec section 6).  The controller core
consumes `disc_read_sector` only through the byte count it produces, and
`disc_get_format` through the reported format code; the sector payload and the
track/session metadata are copied opaquely and no claim depends on them. -/
structure Disc where
  read_sector : Nat → Nat → Nat → Nat
  format : Nat

/-- Controller instance (struct gdrom in gdrom.c).  Register unions are split into the
fields the code actually reads and writes; `error` keeps the raw 16-bit value (the only
named bit the code sets is ABRT).  The byte contents of the PIO buffer are tracked (the
SPI packet is decoded from them); DMA buffer bytes and the hardware-info block are not,
as the control flow never inspects them. -/
structure Gdrom where
  state : GdState
  disc : Option Disc
  error : Nat
  features : Nat
  ireason_cod : Bool
  ireason_io_bit : Bool
  sectnum_status : Nat
  sectnum_format : Nat
  byte_count : Nat
  status_check : Bool
  status_drq : Bool
  status_drdy : Bool
  status_bsy : Bool
  cdr_dma : Nat
  cdr_secfmt : Nat
  cdr_secmask : Nat
  cdr_first_sector : Nat
  cdr_num_sectors : Nat
  pio_buffer : Nat → Nat
  pio_head : Nat
  pio_size : Nat
  pio_offset : Nat
  dma_head : Nat
  dma_size : Nat
  intr : Bool

/-- Modelled from the spec: ATA command opcodes (gdrom_types.h is not under src/; the
values are the standard ATA opcodes the names abbreviate). -/
def GD_ATA_NOP : Nat := 0x00

/-- Modelled from the spec: ATA soft-reset opcode. -/
def GD_ATA_SOFT_RESET : Nat := 0x08

/-- Modelled from the spec: ATA execute-diagnostic opcode (unsupported, fatal). -/
def GD_ATA_EXEC_DIAG : Nat := 0x90

/-- Modelled from the spec: ATA packet-command opcode. -/
def GD_ATA_PACKET_CMD : Nat := 0xa0

/-- Modelled from the spec: ATA identify-device opcode (unsupported, fatal). -/
def GD_ATA_IDENTIFY_DEV : Nat := 0xa1

/-- Modelled from the spec: ATA set-features opcode. -/
def GD_ATA_SET_FEATURES : Nat := 0xef

/-- Modelled from the spec: SPI packet command codes (gdrom_types.h is not under src/;
values are the documented GD-ROM SPI opcodes).  Only their distinctness matters. -/
def GD_SPI_TEST_UNIT : Nat := 0x00

/-- Modelled from the spec: SPI REQ_STAT opcode. -/
def GD_SPI_REQ_STAT : Nat := 0x10

/-- Modelled from the spec: SPI REQ_MODE opcode. -/
def GD_SPI_REQ_MODE : Nat := 0x11

/-- Modelled from the spec: SPI SET_MODE opcode. -/
def GD_SPI_SET_MODE : Nat := 0x12

/-- Modelled from the spec: SPI REQ_ERROR opcode. -/
def GD_SPI_REQ_ERROR : Nat := 0x13

/-- Modelled from the spec: SPI GET_TOC opcode. -/
def GD_SPI_GET_TOC : Nat := 0x14

/-- Modelled from the spec: SPI REQ_SES opcode. -/
def GD_SPI_REQ_SES : Nat := 0x15

/-- Modelled from the spec: SPI CD_OPEN opcode (unsupported, fatal). -/
def GD_SPI_CD_OPEN : Nat := 0x16

/-- Modelled from the spec: SPI CD_PLAY opcode. -/
def GD_SPI_CD_PLAY : Nat := 0x20

/-- Modelled from the spec: SPI CD_SEEK opcode. -/
def GD_SPI_CD_SEEK : Nat := 0x21

/-- Modelled from the spec: SPI CD_SCAN opcode. -/
def GD_SPI_CD_SCAN : Nat := 0x22

/-- Modelled from the spec: SPI CD_READ opcode. -/
def GD_SPI_CD_READ : Nat := 0x30

/-- Modelled from the spec: SPI CD_READ2 opcode (unsupported, fatal). -/
def GD_SPI_CD_READ2 : Nat := 0x31

/-- Modelled from the spec: SPI GET_SCD opcode. -/
def GD_SPI_GET_SCD : Nat := 0x40

/-- Modelled from the spec: SPI CHK_SECU opcode. -/
def GD_SPI_CHK_SECU : Nat := 0x70

/-- Modelled from the spec: SPI REQ_SECU opcode. -/
def GD_SPI_REQ_SECU : Nat := 0x71

/-- Modelled from the spec: drive-status codes held in the sector-number register
(gdrom_types.h is not under src/).  Only PAUSE, STANDBY and NODISC are written by the
core; their distinctness is all the claims need. -/
def GD_STATUS_PAUSE : Nat := 0x01

/-- Modelled from the spec: STANDBY drive-status code. -/
def GD_STATUS_STANDBY : Nat := 0x02

/-- Modelled from the spec: NODISC drive-status code. -/
def GD_STATUS_NODISC : Nat := 0x07

/-- Modelled from the spec: CD_SEEK parameter types (gdrom_types.h is not under src/). -/
def GD_SEEK_FAD : Nat := 0x1

/-- Modelled from the spec: seek-by-MSF parameter type. -/
def GD_SEEK_MSF : Nat := 0x2

/-- Modelled from the spec: seek-stop parameter type. -/
def GD_SEEK_STOP : Nat := 0x3

/-- Modelled from the spec: seek-pause parameter type. -/
def GD_SEEK_PAUSE : Nat := 0x4

/-- Size of a full SPI command packet in bytes (spec section 4.2: a 12-byte packet). -/
def GD_SPI_CMD_SIZE : Nat := 12

/-- Modelled from the spec: DISC_MAX_SECTOR_SIZE (disc collaborator header, not under
src/) — the size of a raw 2352-byte sector, the largest a read can produce. -/
def DISC_MAX_SECTOR_SIZE : Nat := 2352

/-- Capacity of the PIO buffer: sizeof(gd->pio_buffer) = 0x10000 in struct gdrom. -/
def gd_pio_buffer_capacity : Nat := 0x10000

/-- Capacity of the DMA buffer: sizeof(gd->dma_buffer) = 0x10000 in struct gdrom. -/
def gd_dma_buffer_capacity : Nat := 0x10000

/-- Sectors per buffer fill, sizeof(buffer) / DISC_MAX_SECTOR_SIZE (= 27); identical for
the PIO and DMA buffers since both are 0x10000 bytes. -/
def gd_max_chunk_sectors : Nat := gd_dma_buffer_capacity / DISC_MAX_SECTOR_SIZE

/-- Modelled from the spec: sizeof(struct gd_spi_session) — the REQ_SES response
structure (status nibble byte, reserved byte, first-track byte and a 24-bit fad), 6
bytes.  gdrom_types.h is not under src/. -/
def gd_spi_session_size : Nat := 6

/-- Modelled from the spec: sizeof(reply_71), the canned security-check reply from
gdrom_replies.inc (not under src/).  Its exact length is immaterial to every claim;
only that it is below the PIO buffer capacity (gdrom_spi_write would CHECK otherwise). -/
def gd_reply_71_size : Nat := 1075

/-- gdrom_get_fad: frame-address decoding from packet bytes 2..4 plus the MSF mode bit
(data[1] & 1, kept as a Nat exactly like the C int). -/
def gdrom_get_fad (a b c msf : Nat) : Nat :=
  if msf ≠ 0 then
    a * 60 * 75 + b * 75 + c
  else
    Nat.lor (Nat.lor (Nat.shiftLeft a 16) (Nat.shiftLeft b 8)) c

/-- gdrom_spi_end: SPI completion sequence — interrupt reason IO=1 CoD=1, status DRDY=1
BSY=0 DRQ=0, raise the drive interrupt, return to the read-command state. -/
def gdrom_spi_end (gd : Gdrom) : Gdrom :=
  { gd with ireason_io_bit := true, ireason_cod := true,
            status_drdy := true, status_bsy := false, status_drq := false,
            intr := true, state := GdState.readAtaCmd }

/-- Loop body of gdrom_read_sectors: per sector, read it (its byte count comes from the
disc collaborator), CHECK_LE(read + n, dst_size) — fatal (`none`) on overflow — and
accumulate.  The destination bytes themselves are not modelled. -/
def gdrom_read_sectors_loop (d : Disc) (fmt mask cap : Nat) :
    Nat → Nat → Nat → Option Nat
  | 0, _, acc => some acc
  | Nat.succ k, fad, acc =>
      let n := d.read_sector fad fmt mask
      if acc + n ≤ cap then gdrom_read_sectors_loop d fmt mask cap k (fad + 1) (acc + n)
      else none

/-- gdrom_read_sectors: with no disc, warn and return 0 bytes; otherwise read
`num` sectors starting at `fad` and return the total byte count. -/
def gdrom_read_sectors (disc : Option Disc) (fad fmt mask num cap : Nat) : Option Nat :=
  match disc with
  | none => some 0
  | some d => gdrom_read_sectors_loop d fmt mask cap num fad 0

/-- gdrom_spi_cdread: one chunk of the chunked CD_READ.  Fill the DMA or PIO buffer with
min(remaining, capacity-in-sectors) sectors, advance the first-sector address and
decrement the remaining count.  The DMA branch ends the phase silently
(state := WriteDmaData, no interrupt); the PIO branch publishes the byte count, sets the
data-output interrupt reason, raises DRQ and the interrupt, and enters WriteSpiData. -/
def gdrom_spi_cdread (gd : Gdrom) : Option Gdrom :=
  if gd.cdr_dma ≠ 0 then
    let max_dma_sectors := gd_dma_buffer_capacity / DISC_MAX_SECTOR_SIZE
    let num_sectors := min gd.cdr_num_sectors max_dma_sectors
    match gdrom_read_sectors gd.disc gd.cdr_first_sector gd.cdr_secfmt gd.cdr_secmask
        num_sectors gd_dma_buffer_capacity with
    | none => none
    | some r =>
        some { gd with dma_size := r, dma_head := 0,
                       cdr_first_sector := gd.cdr_first_sector + num_sectors,
                       cdr_num_sectors := gd.cdr_num_sectors - num_sectors,
                       state := GdState.writeDmaData }
  else
    let max_pio_sectors := gd_pio_buffer_capacity / DISC_MAX_SECTOR_SIZE
    let num_sectors := min gd.cdr_num_sectors max_pio_sectors
    match gdrom_read_sectors gd.disc gd.cdr_first_sector gd.cdr_secfmt gd.cdr_secmask
        num_sectors gd_pio_buffer_capacity with
    | none => none
    | some r =>
        some { gd with pio_size := r, pio_head := 0,
                       cdr_first_sector := gd.cdr_first_sector + num_sectors,
                       cdr_num_sectors := gd.cdr_num_sectors - num_sectors,
                       byte_count := r % 0x10000,
                       ireason_io_bit := true, ireason_cod := false,
                       status_drq := true, status_bsy := false,
                       intr := true, state := GdState.writeSpiData }

/-- gdrom_spi_read: begin a PIO read of `size` bytes from the host into the PIO buffer
(destination offset `offset` into the hardware-info block, applied on SpiData).  Resets
the remaining CD_READ sector count to zero. -/
def gdrom_spi_read (gd : Gdrom) (offset size : Nat) : Gdrom :=
  { gd with cdr_num_sectors := 0,
            pio_head := 0, pio_size := size, pio_offset := offset,
            byte_count := size % 0x10000,
            ireason_io_bit := true, ireason_cod := false,
            status_drq := true, status_bsy := false,
            intr := true, state := GdState.readSpiData }

/-- gdrom_spi_write: begin a PIO write of `size` bytes to the host.
CHECK(size < sizeof(pio_buffer)) is fatal.  Resets the remaining CD_READ sector count to
zero.  The memcpy of the response structure into the PIO buffer is modelled as an
overwrite of the first `size` bytes with opaque content (zero placeholder): the response
bytes come from structures in gdrom_types.h / gdrom_replies.inc, which are not under
src/, and no claim depends on them. -/
def gdrom_spi_write (gd : Gdrom) (size : Nat) : Option Gdrom :=
  if size < gd_pio_buffer_capacity then
    some { gd with cdr_num_sectors := 0,
                   pio_buffer := fun i => if i < size then 0 else gd.pio_buffer i,
                   pio_size := size, pio_head := 0,
                   byte_count := size % 0x10000,
                   ireason_io_bit := true, ireason_cod := false,
                   status_drq := true, status_bsy := false,
                   intr := true, state := GdState.writeSpiData }
  else none

/-- gdrom_ata_end: ATA completion — DRDY set, BSY cleared, interrupt raised, back to the
read-command state. -/
def gdrom_ata_end (gd : Gdrom) : Gdrom :=
  { gd with status_drdy := true, status_bsy := false, intr := true,
            state := GdState.readAtaCmd }

/-- gdrom_spi_data (SET_MODE completion): copy the received PIO bytes into the
hardware-info block at pio_offset — the block itself is not modelled (its layout lives
in gdrom_types.h, not under src/, and no claim reads it back) — then gdrom_spi_end. -/
def gdrom_spi_data (gd : Gdrom) : Gdrom :=
  gdrom_spi_end gd

/-- gdrom_pio_read handler: on read-exhaustion (pio_head == pio_size), refill through
the sector reader when CD_READ sectors remain, otherwise complete the SPI phase. -/
def gdrom_pio_read (gd : Gdrom) : Option Gdrom :=
  if gd.pio_head = gd.pio_size then
    if gd.cdr_num_sectors ≠ 0 then gdrom_spi_cdread gd
    else some (gdrom_spi_end gd)
  else some gd

/-- gdrom_set_disc: replace the disc handle (the destroy of the old disc and the meta
logging have no controller-state effect and are elided), then perform the protocol
soft reset: error cleared, status cleared with DRDY set, sector-number register cleared
then set to PAUSE plus the disc format, or NODISC with no disc.  GD_FEATURES,
GD_INTREASON and the byte-count registers are left untouched (the TODO in the source). -/
def gdrom_set_disc (gd : Gdrom) (disc : Option Disc) : Gdrom :=
  let gd1 := { gd with disc := disc }
  let gd2 := { gd1 with error := 0,
                        status_check := false, status_drq := false,
                        status_drdy := true, status_bsy := false,
                        sectnum_status := 0, sectnum_format := 0 }
  match disc with
  | some d => { gd2 with sectnum_status := GD_STATUS_PAUSE, sectnum_format := d.format }
  | none => { gd2 with sectnum_status := GD_STATUS_NODISC }

/-- The prologue of gdrom_spi_cmd: clear DRQ, set BSY (split out as a named function so
terms over it stay compact). -/
def gdrom_spi_cmd_begin (gd : Gdrom) : Gdrom :=
  { gd with status_drq := false, status_bsy := true }

/-- The per-command `gd->sectnum.status = s` assignment of the CD_PLAY, CD_SEEK and
CD_SCAN cases. -/
def gdrom_set_sectnum_status (gd : Gdrom) (s : Nat) : Gdrom :=
  { gd with sectnum_status := s }

/-- The cdread-state assignments of the CD_READ case of gdrom_spi_cmd: transfer mode
from the features register, sector format and sub-header mask from packet byte 1, first
sector decoded from bytes 2..4 (MSF or FAD per the mode bit), sector count from bytes
8..10. -/
def gdrom_set_cdread_state (gd : Gdrom) (data : Nat → Nat) : Gdrom :=
  let msf := Nat.land (data 1) 0x1
  { gd with cdr_dma := Nat.land gd.features 1,
            cdr_secfmt := Nat.shiftRight (Nat.land (data 1) 0xe) 1,
            cdr_secmask := Nat.land (Nat.shiftRight (data 1) 4) 0xff,
            cdr_first_sector := gdrom_get_fad (data 2) (data 3) (data 4) msf,
            cdr_num_sectors :=
              Nat.lor (Nat.lor (Nat.shiftLeft (data 8) 16)
                (Nat.shiftLeft (data 9) 8)) (data 10) }

/-- The CD_SEEK case body: set the drive status per the seek parameter type (PAUSE for
FAD/MSF/PAUSE seeks, STANDBY for STOP, untouched otherwise — the C switch has no
default), then complete.  The literal patterns are GD_SEEK_FAD, GD_SEEK_MSF,
GD_SEEK_PAUSE and GD_SEEK_STOP. -/
def gdrom_spi_cd_seek (gd0 : Gdrom) (param_type : Nat) : Option Gdrom :=
  let gd1 :=
    match param_type with
    | 0x1 | 0x2 | 0x4 => gdrom_set_sectnum_status gd0 GD_STATUS_PAUSE
    | 0x3 => gdrom_set_sectnum_status gd0 GD_STATUS_STANDBY
    | _ => gd0
  some (gdrom_spi_end gd1)

/-- gdrom_spi_cmd: decode the 12-byte packet sitting in the PIO buffer.  Clears DRQ,
sets BSY, then dispatches on byte 0 (the literal patterns are the GD_SPI_* opcodes,
commented per arm).  Unsupported commands (CD_READ2, CD_OPEN and unknown codes) are
fatal; commands whose response requires the disc collaborator are fatal with no disc
attached (CHECK_NOTNULL in the gdrom_get_* helpers). -/
def gdrom_spi_cmd (gd : Gdrom) : Option Gdrom :=
  let data := gd.pio_buffer
  let cmd := data 0
  let gd0 := gdrom_spi_cmd_begin gd
  match cmd with
  | 0x10 =>  -- GD_SPI_REQ_STAT
    match gd0.disc with
    | none => none
    | some _ => gdrom_spi_write gd0 (data 4)
  | 0x11 =>  -- GD_SPI_REQ_MODE
    gdrom_spi_write gd0 (data 4)
  | 0x13 =>  -- GD_SPI_REQ_ERROR
    match gd0.disc with
    | none => none
    | some _ => gdrom_spi_write gd0 (data 4)
  | 0x14 =>  -- GD_SPI_GET_TOC
    match gd0.disc with
    | none => none
    | some _ => gdrom_spi_write gd0 (Nat.lor (Nat.shiftLeft (data 3) 8) (data 4))
  | 0x15 =>  -- GD_SPI_REQ_SES
    match gd0.disc with
    | none => none
    | some _ => gdrom_spi_write gd0 gd_spi_session_size
  | 0x40 =>  -- GD_SPI_GET_SCD
    match gd0.disc with
    | none => none
    | some _ => gdrom_spi_write gd0 (Nat.lor (Nat.shiftLeft (data 3) 8) (data 4))
  | 0x30 =>  -- GD_SPI_CD_READ
    gdrom_spi_cdread (gdrom_set_cdread_state gd0 data)
  | 0x31 => none  -- GD_SPI_CD_READ2: LOG_FATAL
  | 0x12 =>  -- GD_SPI_SET_MODE
    some (gdrom_spi_read gd0 (data 2) (data 4))
  | 0x00 =>  -- GD_SPI_TEST_UNIT
    some (gdrom_spi_end gd0)
  | 0x16 => none  -- GD_SPI_CD_OPEN: LOG_FATAL
  | 0x20 =>  -- GD_SPI_CD_PLAY
    some (gdrom_spi_end (gdrom_set_sectnum_status gd0 GD_STATUS_PAUSE))
  | 0x21 =>  -- GD_SPI_CD_SEEK
    gdrom_spi_cd_seek gd0 (Nat.land (data 1) 0xf)
  | 0x22 =>  -- GD_SPI_CD_SCAN
    some (gdrom_spi_end (gdrom_set_sectnum_status gd0 GD_STATUS_PAUSE))
  | 0x70 =>  -- GD_SPI_CHK_SECU
    some (gdrom_spi_end gd0)
  | 0x71 =>  -- GD_SPI_REQ_SECU
    gdrom_spi_write gd0 gd_reply_71_size
  | _ => none  -- unsupported SPI command: LOG_FATAL

/-- The prologue of gdrom_ata_cmd: clear DRDY, set BSY, clear the error register and
CHECK (split out as a named function so terms over it stay compact). -/
def gdrom_ata_cmd_begin (gd : Gdrom) : Gdrom :=
  { gd with status_drdy := false, status_bsy := true,
            error := 0, status_check := false }

/-- The packet-receive entry of gdrom_ata_cmd (the `read_data` epilogue): reset the PIO
head, set interrupt reason CoD=1 IO=0, raise DRQ, clear BSY, await the 12-byte packet. -/
def gdrom_ata_packet_begin (gd : Gdrom) : Gdrom :=
  { gd with pio_head := 0,
            ireason_cod := true, ireason_io_bit := false,
            status_drq := true, status_bsy := false,
            state := GdState.readAtaData }

/-- gdrom_ata_cmd: clear error/CHECK, set BSY, clear DRDY, then dispatch on the command.
NOP sets ABRT (bit 2 of the just-cleared error register) and CHECK; SOFT_RESET re-runs
gdrom_set_disc on the current disc; PACKET_CMD enters the packet-receive phase;
SET_FEATURES is accepted with no effect; EXEC_DIAG, IDENTIFY_DEV and unknown commands
are fatal.  Non-packet commands complete through gdrom_ata_end. -/
def gdrom_ata_cmd (gd : Gdrom) (cmd : Nat) : Option Gdrom :=
  let gd0 := gdrom_ata_cmd_begin gd
  if cmd = GD_ATA_NOP then
    some (gdrom_ata_end { gd0 with error := 4, status_check := true })
  else if cmd = GD_ATA_SOFT_RESET then
    some (gdrom_ata_end (gdrom_set_disc gd0 gd0.disc))
  else if cmd = GD_ATA_EXEC_DIAG then none
  else if cmd = GD_ATA_PACKET_CMD then
    some (gdrom_ata_packet_begin gd0)
  else if cmd = GD_ATA_IDENTIFY_DEV then none
  else if cmd = GD_ATA_SET_FEATURES then
    some (gdrom_ata_end gd0)
  else none

/-- gd_transitions: the fixed state times event table of gdrom.c (rows in state order,
columns in event order; NULL entries become `none`). -/
def gd_transitions : GdState → GdEvent → Option GdHandler
  | GdState.readAtaCmd, GdEvent.ataCmd => some GdHandler.ataCmd
  | GdState.readAtaData, GdEvent.ataCmd => some GdHandler.ataCmd
  | GdState.readAtaData, GdEvent.pioWrite => some GdHandler.pioWrite
  | GdState.readAtaData, GdEvent.spiCmd => some GdHandler.spiCmd
  | GdState.readSpiData, GdEvent.ataCmd => some GdHandler.ataCmd
  | GdState.readSpiData, GdEvent.pioWrite => some GdHandler.pioWrite
  | GdState.readSpiData, GdEvent.spiData => some GdHandler.spiData
  | GdState.writeSpiData, GdEvent.ataCmd => some GdHandler.ataCmd
  | GdState.writeSpiData, GdEvent.pioRead => some GdHandler.pioRead
  | GdState.writeDmaData, GdEvent.ataCmd => some GdHandler.ataCmd
  | GdState.writeDmaData, GdEvent.pioRead => some GdHandler.pioRead
  | _, _ => none

/-- Dispatcher for the events gdrom_pio_write re-raises (EVENT_SPI_CMD and
EVENT_SPI_DATA): look the handler up in gd_transitions and invoke it, `none` when the
entry is NULL (the CHECK(cb) of gdrom_event).  The pioWrite arm is unreachable for these
events — gd_transitions maps no state to the PIO-write handler under SpiCmd or SpiData
(lemma gdrom_event_nested_agrees below) — and is kept fatal; splitting the dispatcher
this way only breaks the (bounded, depth-one) C recursion gdrom_pio_write → gdrom_event
so that every definition stays structurally recursive and computable. -/
def gdrom_event_nested (gd : Gdrom) (ev : GdEvent) (arg : Nat) : Option Gdrom :=
  match gd_transitions gd.state ev with
  | none => none
  | some GdHandler.ataCmd => gdrom_ata_cmd gd arg
  | some GdHandler.pioWrite => none
  | some GdHandler.spiCmd => gdrom_spi_cmd gd
  | some GdHandler.pioRead => gdrom_pio_read gd
  | some GdHandler.spiData => some (gdrom_spi_data gd)

/-- gdrom_pio_write handler: once a full 12-byte packet has been received while awaiting
a command packet, dispatch EVENT_SPI_CMD; once the SET_MODE payload is complete while
awaiting SPI data, dispatch EVENT_SPI_DATA; otherwise nothing. -/
def gdrom_pio_write (gd : Gdrom) : Option Gdrom :=
  if gd.state = GdState.readAtaData ∧ gd.pio_head = GD_SPI_CMD_SIZE then
    gdrom_event_nested gd GdEvent.spiCmd 0
  else if gd.state = GdState.readSpiData ∧ gd.pio_head = gd.pio_size then
    gdrom_event_nested gd GdEvent.spiData 0
  else some gd

/-- gdrom_event: look up gd_transitions[state][event]; CHECK(cb) — a NULL entry is a
protocol violation and fatal — and invoke the handler. -/
def gdrom_event (gd : Gdrom) (ev : GdEvent) (arg : Nat) : Option Gdrom :=
  match gd_transitions gd.state ev with
  | none => none
  | some GdHandler.ataCmd => gdrom_ata_cmd gd arg
  | some GdHandler.pioWrite => gdrom_pio_write gd
  | some GdHandler.spiCmd => gdrom_spi_cmd gd
  | some GdHandler.pioRead => gdrom_pio_read gd
  | some GdHandler.spiData => some (gdrom_spi_data gd)

/-- gdrom_dma_begin: CHECK(gd->dma_size) — fatal when no DMA payload is pending. -/
def gdrom_dma_begin (gd : Gdrom) : Option Gdrom :=
  if gd.dma_size = 0 then none else some gd

/-- gdrom_dma_end: a pure logging hook with no state effect. -/
def gdrom_dma_end (gd : Gdrom) : Gdrom := gd

/-- gdrom_dma_read: one externally pumped DMA step.  If the buffer is exhausted, refill
through gdrom_spi_cdread; clamp the request to the remaining bytes, CHECK_GT(n, 0) —
fatal when nothing can be produced; copy out (bytes unmodelled, the count is returned),
advance the head; if the buffer is now exhausted, run the SPI completion sequence. -/
def gdrom_dma_read (gd : Gdrom) (n : Nat) : Option (Nat × Gdrom) :=
  match (if gd.dma_size ≤ gd.dma_head then gdrom_spi_cdread gd else some gd) with
  | none => none
  | some gd1 =>
      let remaining := gd1.dma_size - gd1.dma_head
      let m := min n remaining
      if m = 0 then none
      else
        let gd2 := { gd1 with dma_head := gd1.dma_head + m }
        if gd2.dma_size ≤ gd2.dma_head then some (m, gdrom_spi_end gd2)
        else some (m, gd2)

/-- The memory-mapped registers of the controller (REG_R32/REG_W32 handlers). -/
inductive GdReg where
  | altstatDevctrl
  | dataReg
  | errorFeatures
  | intreason
  | sectnum
  | byctlLo
  | byctlHi
  | drvsel
  | statusCommand
  deriving DecidableEq, Repr

/-- Store one little-endian 16-bit word at byte offset `pos` (the
`*(uint16_t *)&pio_buffer[pio_head] = value & 0xffff` of the GD_DATA write handler). -/
def writeWord (buf : Nat → Nat) (pos v : Nat) : Nat → Nat :=
  fun i => if i = pos then v % 256 else if i = pos + 1 then v / 256 % 256 else buf i

/-- Register read side effects (REG_R32 handlers).  The value returned to the guest is
not part of the claims; only the state effects are kept: a data-register read consumes
two bytes and raises EVENT_PIO_READ, a status read clears the drive interrupt, all
other reads are pure. -/
def gdrom_reg_read (gd : Gdrom) (r : GdReg) : Option Gdrom :=
  match r with
  | GdReg.dataReg =>
      gdrom_event { gd with pio_head := gd.pio_head + 2 } GdEvent.pioRead 0
  | GdReg.statusCommand => some { gd with intr := false }
  | _ => some gd

/-- Register write side effects (REG_W32 handlers).  Writes to GD_INTREASON and
GD_SECTNUM are protocol violations (LOG_FATAL); a data write stores a 16-bit word,
advances the head and raises EVENT_PIO_WRITE; a command write raises EVENT_ATA_CMD;
DEVCTRL and DRVSEL writes are accepted and ignored. -/
def gdrom_reg_write (gd : Gdrom) (r : GdReg) (v : Nat) : Option Gdrom :=
  match r with
  | GdReg.altstatDevctrl => some gd
  | GdReg.dataReg =>
      gdrom_event
        { gd with pio_buffer := writeWord gd.pio_buffer gd.pio_head v,
                  pio_head := gd.pio_head + 2 }
        GdEvent.pioWrite 0
  | GdReg.errorFeatures => some { gd with features := v }
  | GdReg.intreason => none
  | GdReg.sectnum => none
  | GdReg.byctlLo => some { gd with byte_count := 256 * (gd.byte_count / 256) + v % 256 }
  | GdReg.byctlHi => some { gd with byte_count := (v % 256) * 256 + gd.byte_count % 256 }
  | GdReg.drvsel => some gd
  | GdReg.statusCommand => gdrom_event gd GdEvent.ataCmd v

/-- One controller operation the environment can perform: a register access from the
guest, a DMA-pump step from the bus master, or a disc attach/replace. -/
inductive GdOp where
  | regRead (r : GdReg)
  | regWrite (r : GdReg) (v : Nat)
  | dmaBegin
  | dmaRead (n : Nat)
  | dmaEnd
  | setDisc (d : Option Disc)

/-- Apply one operation; `none` is a fatal condition (emulation terminates). -/
def gdrom_step (op : GdOp) (gd : Gdrom) : Option Gdrom :=
  match op with
  | GdOp.regRead r => gdrom_reg_read gd r
  | GdOp.regWrite r v => gdrom_reg_write gd r v
  | GdOp.dmaBegin => gdrom_dma_begin gd
  | GdOp.dmaRead n => (gdrom_dma_read gd n).map Prod.snd
  | GdOp.dmaEnd => some (gdrom_dma_end gd)
  | GdOp.setDisc d => some (gdrom_set_disc gd d)

/-- Run a sequence of operations from a given state, stopping at the first fatal one. -/
def gdrom_run_from (gd : Gdrom) : List GdOp → Option Gdrom
  | [] => some gd
  | op :: rest =>
      match gdrom_step op gd with
      | none => none
      | some gd' => gdrom_run_from gd' rest

/-- The zero-initialized controller allocated by dc_create_device (state 0 is
STATE_READ_ATA_CMD). -/
def gdrom_zero : Gdrom :=
  { state := GdState.readAtaCmd, disc := none, error := 0, features := 0,
    ireason_cod := false, ireason_io_bit := false,
    sectnum_status := 0, sectnum_format := 0, byte_count := 0,
    status_check := false, status_drq := false, status_drdy := false, status_bsy := false,
    cdr_dma := 0, cdr_secfmt := 0, cdr_secmask := 0,
    cdr_first_sector := 0, cdr_num_sectors := 0,
    pio_buffer := fun _ => 0, pio_head := 0, pio_size := 0, pio_offset := 0,
    dma_head := 0, dma_size := 0, intr := false }

/-- gdrom_init: default hardware info (block not modelled) then gdrom_set_disc(NULL). -/
def gdrom_init : Gdrom :=
  gdrom_set_disc gdrom_zero none

/-- Run a sequence of operations from the freshly initialized controller. -/
def gdrom_run (ops : List GdOp) : Option Gdrom :=
  gdrom_run_from gdrom_init ops

/-- Transcription of the state times event legality table described by spec section 4.1
together with the event flows of sections 4.2-4.6: AtaCommand is legal from every state;
packet receive (ReadAtaData) accepts PIO writes and the SpiCommand trigger; the SET_MODE
payload phase (ReadSpiData) accepts PIO writes and the SpiData trigger; the data-output
phases (WriteSpiData, WriteDmaData) accept PIO reads (section 4.5: read-exhaustion may
switch back into DMA bookkeeping); everything else is illegal. -/
def spec41_transitions : GdState → GdEvent → Option GdHandler
  | _, GdEvent.ataCmd => some GdHandler.ataCmd
  | GdState.readAtaData, GdEvent.pioWrite => some GdHandler.pioWrite
  | GdState.readAtaData, GdEvent.spiCmd => some GdHandler.spiCmd
  | GdState.readSpiData, GdEvent.pioWrite => some GdHandler.pioWrite
  | GdState.readSpiData, GdEvent.spiData => some GdHandler.spiData
  | GdState.writeSpiData, GdEvent.pioRead => some GdHandler.pioRead
  | GdState.writeDmaData, GdEvent.pioRead => some GdHandler.pioRead
  | _, _ => none

/-- The per-chunk sector bookkeeping of gdrom_spi_cdread (identical in its DMA and PIO
branches): `num_sectors = MIN(remaining, cap)`, first-sector advanced and remaining
decremented by it. -/
def cdreadStep (cap : Nat) (p : Nat × Nat) : Nat × Nat :=
  (p.1 + min p.2 cap, p.2 - min p.2 cap)

/-- The chunk sizes a CD_READ with `rem` remaining sectors emits when every refill fills
a buffer of `cap` sectors — iterating the bookkeeping of gdrom_spi_cdread until the
remaining count reaches zero. -/
def cdreadChunks (rem cap : Nat) : List Nat :=
  if h : rem = 0 ∨ cap = 0 then []
  else min rem cap :: cdreadChunks (rem - min rem cap) cap
termination_by rem
decreasing_by
  push_neg at h
  omega

/-- The DMA-buffer half of the spec's buffer invariant: 0 ≤ head ≤ size ≤ capacity
(the lower bound is inherent to Nat). -/
abbrev DmaInv (gd : Gdrom) : Prop :=
  gd.dma_head ≤ gd.dma_size ∧ gd.dma_size ≤ gd_dma_buffer_capacity

lemma cdreadChunks_eq_nil (cap : Nat) : cdreadChunks 0 cap = [] := by
  unfold cdreadChunks
  simp

lemma cdreadChunks_eq_cons (rem cap : Nat) (h0 : rem ≠ 0) (hc : cap ≠ 0) :
    cdreadChunks rem cap = min rem cap :: cdreadChunks (rem - min rem cap) cap := by
  rw [cdreadChunks]
  rw [dif_neg (by omega)]

lemma cdreadChunks_sum (cap : Nat) (hc : cap ≠ 0) :
    ∀ rem, (cdreadChunks rem cap).sum = rem := by
  intro rem
  induction rem using Nat.strong_induction_on with
  | _ rem ih =>
    by_cases h0 : rem = 0
    · subst h0
      simp [cdreadChunks_eq_nil]
    · rw [cdreadChunks_eq_cons rem cap h0 hc, List.sum_cons,
        ih (rem - min rem cap) (by omega)]
      omega

lemma cdreadChunks_length (cap : Nat) (hc : 0 < cap) :
    ∀ rem, (cdreadChunks rem cap).length = (rem + cap - 1) / cap := by
  intro rem
  induction rem using Nat.strong_induction_on with
  | _ rem ih =>
    by_cases h0 : rem = 0
    · subst h0
      rw [cdreadChunks_eq_nil]
      rw [Nat.div_eq_of_lt (by omega)]
      rfl
    · rw [cdreadChunks_eq_cons rem cap h0 (by omega), List.length_cons,
        ih (rem - min rem cap) (by omega)]
      have hrw : rem + cap - 1 = (rem - 1) + cap := by omega
      rw [hrw, Nat.add_div_right _ hc]
      by_cases hle : rem ≤ cap
      · have h1 : rem - min rem cap = 0 := by omega
        rw [h1]
        rw [Nat.div_eq_of_lt (by omega : 0 + cap - 1 < cap),
            Nat.div_eq_of_lt (by omega : rem - 1 < cap)]
      · have h1 : rem - min rem cap + cap - 1 = (rem - cap - 1) + cap := by omega
        rw [h1, Nat.add_div_right _ hc]
        have h2 : rem - 1 = (rem - cap - 1) + cap := by omega
        rw [h2, Nat.add_div_right _ hc]

lemma cdreadChunks_getD (cap : Nat) (hc : 0 < cap) :
    ∀ rem i, i < (cdreadChunks rem cap).length →
      (cdreadChunks rem cap).getD i 0 = min (rem - i * cap) cap := by
  intro rem
  induction rem using Nat.strong_induction_on with
  | _ rem ih =>
    intro i h
    by_cases h0 : rem = 0
    · subst h0
      rw [cdreadChunks_eq_nil] at h
      exact absurd h (by simp)
    · rw [cdreadChunks_eq_cons rem cap h0 (by omega)] at h ⊢
      match i with
      | 0 => simp
      | Nat.succ j =>
        simp only [List.getD_cons_succ]
        rw [ih (rem - min rem cap) (by omega) j (by simpa using h)]
        have harg : rem - min rem cap - j * cap = rem - (j + 1) * cap := by
          have hjc : (j + 1) * cap = j * cap + cap := by ring
          rw [hjc]
          generalize j * cap = k
          omega
        rw [harg]

lemma gdrom_read_sectors_loop_le (d : Disc) (fmt mask cap : Nat) :
    ∀ num fad acc r, acc ≤ cap →
      gdrom_read_sectors_loop d fmt mask cap num fad acc = some r → r ≤ cap := by
  intro num
  induction num with
  | zero =>
    intro fad acc r hacc hr
    simp only [gdrom_read_sectors_loop] at hr
    injection hr with he
    omega
  | succ k ih =>
    intro fad acc r hacc hr
    simp only [gdrom_read_sectors_loop] at hr
    split at hr
    · rename_i hcond
      exact ih _ _ _ hcond hr
    · cases hr

lemma gdrom_read_sectors_le (disc : Option Disc) (fad fmt mask num cap r : Nat)
    (h : gdrom_read_sectors disc fad fmt mask num cap = some r) : r ≤ cap := by
  cases disc with
  | none =>
    simp only [gdrom_read_sectors] at h
    injection h with he
    omega
  | some d =>
    simp only [gdrom_read_sectors] at h
    exact gdrom_read_sectors_loop_le d fmt mask cap num fad 0 r (Nat.zero_le _) h


lemma DmaInv_set_disc (gd : Gdrom) (d : Option Disc) (h : DmaInv gd) :
    DmaInv (gdrom_set_disc gd d) := by
  cases d <;> exact ⟨h.1, h.2⟩

lemma DmaInv_spi_write (gd : Gdrom) (sz : Nat) (gd' : Gdrom) (h : DmaInv gd)
    (hw : gdrom_spi_write gd sz = some gd') : DmaInv gd' := by
  simp only [gdrom_spi_write] at hw
  split at hw
  · injection hw with hgd
    subst hgd
    exact ⟨h.1, h.2⟩
  · exact Option.noConfusion hw

lemma DmaInv_spi_cdread (gd gd' : Gdrom) (h : DmaInv gd)
    (hc : gdrom_spi_cdread gd = some gd') : DmaInv gd' := by
  simp only [gdrom_spi_cdread] at hc
  split at hc
  · split at hc
    · exact Option.noConfusion hc
    · rename_i r hr
      injection hc with hgd
      subst hgd
      refine ⟨Nat.zero_le _, ?_⟩
      exact gdrom_read_sectors_le _ _ _ _ _ _ _ hr
  · split at hc
    · exact Option.noConfusion hc
    · injection hc with hgd
      subst hgd
      exact ⟨h.1, h.2⟩

lemma DmaInv_ata_cmd (gd : Gdrom) (cmd : Nat) (gd' : Gdrom) (h : DmaInv gd)
    (hc : gdrom_ata_cmd gd cmd = some gd') : DmaInv gd' := by
  simp only [gdrom_ata_cmd] at hc
  split_ifs at hc
  all_goals first
    | exact Option.noConfusion hc
    | (injection hc with hgd; subst hgd; exact ⟨h.1, h.2⟩)
    | (injection hc with hgd; subst hgd; exact DmaInv_set_disc _ _ ⟨h.1, h.2⟩)

set_option maxHeartbeats 1000000 in
lemma DmaInv_spi_cmd (gd gd' : Gdrom) (h : DmaInv gd)
    (hc : gdrom_spi_cmd gd = some gd') : DmaInv gd' := by
  simp only [gdrom_spi_cmd, gdrom_spi_cd_seek] at hc
  iterate 3 (all_goals try split at hc)
  all_goals first
    | exact Option.noConfusion hc
    | (refine DmaInv_spi_write _ _ _ ?_ hc; exact ⟨h.1, h.2⟩)
    | (refine DmaInv_spi_cdread _ _ ?_ hc; exact ⟨h.1, h.2⟩)
    | (injection hc with hgd; subst hgd; exact ⟨h.1, h.2⟩)

lemma DmaInv_pio_read (gd gd' : Gdrom) (h : DmaInv gd)
    (hc : gdrom_pio_read gd = some gd') : DmaInv gd' := by
  simp only [gdrom_pio_read] at hc
  split_ifs at hc
  all_goals first
    | exact Option.noConfusion hc
    | exact DmaInv_spi_cdread _ _ h hc
    | (injection hc with hgd; subst hgd; exact ⟨h.1, h.2⟩)

lemma DmaInv_event_nested (gd : Gdrom) (ev : GdEvent) (arg : Nat) (gd' : Gdrom)
    (h : DmaInv gd) (hc : gdrom_event_nested gd ev arg = some gd') : DmaInv gd' := by
  simp only [gdrom_event_nested] at hc
  split at hc
  all_goals first
    | exact Option.noConfusion hc
    | exact DmaInv_ata_cmd _ _ _ h hc
    | exact DmaInv_spi_cmd _ _ h hc
    | exact DmaInv_pio_read _ _ h hc
    | (injection hc with hgd; subst hgd; exact ⟨h.1, h.2⟩)

lemma DmaInv_pio_write (gd gd' : Gdrom) (h : DmaInv gd)
    (hc : gdrom_pio_write gd = some gd') : DmaInv gd' := by
  simp only [gdrom_pio_write] at hc
  split_ifs at hc
  all_goals first
    | exact DmaInv_event_nested _ _ _ _ h hc
    | (injection hc with hgd; subst hgd; exact ⟨h.1, h.2⟩)

lemma DmaInv_event (gd : Gdrom) (ev : GdEvent) (arg : Nat) (gd' : Gdrom)
    (h : DmaInv gd) (hc : gdrom_event gd ev arg = some gd') : DmaInv gd' := by
  simp only [gdrom_event] at hc
  split at hc
  all_goals first
    | exact Option.noConfusion hc
    | exact DmaInv_ata_cmd _ _ _ h hc
    | exact DmaInv_pio_write _ _ h hc
    | exact DmaInv_spi_cmd _ _ h hc
    | exact DmaInv_pio_read _ _ h hc
    | (injection hc with hgd; subst hgd; exact ⟨h.1, h.2⟩)

lemma DmaInv_reg_read (gd : Gdrom) (r : GdReg) (gd' : Gdrom) (h : DmaInv gd)
    (hc : gdrom_reg_read gd r = some gd') : DmaInv gd' := by
  cases r <;> simp only [gdrom_reg_read] at hc <;>
  first
    | (refine DmaInv_event _ _ _ _ ?_ hc; exact ⟨h.1, h.2⟩)
    | (injection hc with hgd; subst hgd; exact ⟨h.1, h.2⟩)

lemma DmaInv_reg_write (gd : Gdrom) (r : GdReg) (v : Nat) (gd' : Gdrom) (h : DmaInv gd)
    (hc : gdrom_reg_write gd r v = some gd') : DmaInv gd' := by
  cases r <;> simp only [gdrom_reg_write] at hc <;>
  first
    | exact Option.noConfusion hc
    | (refine DmaInv_event _ _ _ _ ?_ hc; exact ⟨h.1, h.2⟩)
    | (injection hc with hgd; subst hgd; exact ⟨h.1, h.2⟩)

lemma DmaInv_dma_read (gd : Gdrom) (n : Nat) (p : Nat × Gdrom) (h : DmaInv gd)
    (hc : gdrom_dma_read gd n = some p) : DmaInv p.2 := by
  simp only [gdrom_dma_read] at hc
  split at hc
  · exact Option.noConfusion hc
  · rename_i gd1 hg1
    have h1 : DmaInv gd1 := by
      by_cases hcase : gd.dma_size ≤ gd.dma_head
      · rw [if_pos hcase] at hg1
        exact DmaInv_spi_cdread _ _ h hg1
      · rw [if_neg hcase] at hg1
        injection hg1 with he
        subst he
        exact h
    split at hc
    · exact Option.noConfusion hc
    · split at hc
      · injection hc with he
        subst he
        refine ⟨?_, ?_⟩
        · show gd1.dma_head + min n (gd1.dma_size - gd1.dma_head) ≤ gd1.dma_size
          have := h1.1
          omega
        · show gd1.dma_size ≤ gd_dma_buffer_capacity
          exact h1.2
      · injection hc with he
        subst he
        refine ⟨?_, ?_⟩
        · show gd1.dma_head + min n (gd1.dma_size - gd1.dma_head) ≤ gd1.dma_size
          have := h1.1
          omega
        · show gd1.dma_size ≤ gd_dma_buffer_capacity
          exact h1.2

lemma DmaInv_step (op : GdOp) (gd gd' : Gdrom) (h : DmaInv gd)
    (hc : gdrom_step op gd = some gd') : DmaInv gd' := by
  cases op with
  | regRead r => exact DmaInv_reg_read _ _ _ h hc
  | regWrite r v => exact DmaInv_reg_write _ _ _ _ h hc
  | dmaBegin =>
    simp only [gdrom_step, gdrom_dma_begin] at hc
    split at hc
    · exact Option.noConfusion hc
    · injection hc with he
      subst he
      exact h
  | dmaRead n =>
    simp only [gdrom_step] at hc
    cases hr : gdrom_dma_read gd n with
    | none => rw [hr] at hc; exact Option.noConfusion hc
    | some p =>
      rw [hr] at hc
      injection hc with he
      subst he
      exact DmaInv_dma_read _ _ _ h hr
  | dmaEnd =>
    simp only [gdrom_step, gdrom_dma_end] at hc
    injection hc with he
    subst he
    exact h
  | setDisc d =>
    simp only [gdrom_step] at hc
    injection hc with he
    subst he
    exact DmaInv_set_disc _ _ h

lemma DmaInv_run_from : ∀ ops (gd gd' : Gdrom), DmaInv gd →
    gdrom_run_from gd ops = some gd' → DmaInv gd' := by
  intro ops
  induction ops with
  | nil =>
    intro gd gd' h hr
    simp only [gdrom_run_from] at hr
    injection hr with he
    subst he
    exact h
  | cons op rest ih =>
    intro gd gd' h hr
    simp only [gdrom_run_from] at hr
    cases hs : gdrom_step op gd with
    | none => rw [hs] at hr; exact Option.noConfusion hr
    | some gd1 =>
      rw [hs] at hr
      exact ih _ _ (DmaInv_step _ _ _ h hs) hr

/-- A concrete disc used by the concrete executions below: every sector decodes to 2048
bytes and the reported format code is 3. -/
def gd_test_disc : Disc := { read_sector := fun _ _ _ => 2048, format := 3 }

/-- States gdrom_spi_cdread can leave the controller in: WriteDmaData from the DMA
branch, WriteSpiData from the PIO branch. -/
lemma gdrom_spi_cdread_state (gd gd1 : Gdrom) (hc : gdrom_spi_cdread gd = some gd1) :
    gd1.state = GdState.writeDmaData ∨ gd1.state = GdState.writeSpiData := by
  simp only [gdrom_spi_cdread] at hc
  split at hc <;> split at hc <;>
  first
    | exact Option.noConfusion hc
    | (injection hc with he; subst he; exact Or.inl rfl)
    | (injection hc with he; subst he; exact Or.inr rfl)

/-- What one pumped DMA read step guarantees (the amended C1): the SPI completion
sequence (ReadCommand state, DRDY set, BSY/DRQ clear, interrupt reason IO=1 CoD=1,
interrupt raised) happens exactly when the DMA buffer is exhausted after the copy —
independent of the remaining sector count — and a step entered with an exhausted buffer
first refills it through the sector reader. -/
def DmaCompletionSpec (gd : Gdrom) (p : Nat × Gdrom) : Prop :=
  ((p.2.state = GdState.readAtaCmd ∧ p.2.status_drdy = true ∧ p.2.status_bsy = false ∧
      p.2.status_drq = false ∧ p.2.ireason_io_bit = true ∧ p.2.ireason_cod = true ∧
      p.2.intr = true) ↔ p.2.dma_size ≤ p.2.dma_head) ∧
  (gd.dma_size ≤ gd.dma_head → (gdrom_spi_cdread gd).isSome = true)

/-- A reachable run refuting C1 as stated: attach a disc, enable DMA in the features
register, issue PACKET_CMD, write a CD_READ packet for 32 sectors (27 fill the DMA
buffer, 5 remain), then pump the whole buffer in one DMA read. -/
def gd_c1_ops : List GdOp :=
  [GdOp.setDisc (some gd_test_disc),
   GdOp.regWrite GdReg.errorFeatures 1,
   GdOp.regWrite GdReg.statusCommand 0xa0,
   GdOp.regWrite GdReg.dataReg 0x30,
   GdOp.regWrite GdReg.dataReg 0,
   GdOp.regWrite GdReg.dataReg 0,
   GdOp.regWrite GdReg.dataReg 0,
   GdOp.regWrite GdReg.dataReg 0,
   GdOp.regWrite GdReg.dataReg 32,
   GdOp.dmaBegin,
   GdOp.dmaRead 55296]

/-- C1 (counterexample): in a guest-reachable run, a DMA read step that drains the
buffer performs the full SPI completion sequence even though 5 sectors remain, so the
completion does not happen "exactly when ... the remaining sector count is zero". -/
theorem gdrom_dma_read_completion_cex :
    ((gdrom_run gd_c1_ops).map fun gd =>
      decide (gd.cdr_num_sectors = 5 ∧ gd.state = GdState.readAtaCmd ∧
        gd.status_drdy = true ∧ gd.status_bsy = false ∧ gd.status_drq = false ∧
        gd.ireason_io_bit = true ∧ gd.ireason_cod = true ∧ gd.intr = true)) =
      some true := by
  decide

/-- C1 (amended): during a DMA-mode CD_READ (state WriteDmaData), a successful DMA read
step performs the SPI completion sequence exactly when the DMA buffer is exhausted after
the copy, regardless of the remaining sector count; a step entered with an exhausted
buffer refills it first. -/
theorem gdrom_dma_read_completion (gd : Gdrom) (n : Nat) (p : Nat × Gdrom)
    (hs : gd.state = GdState.writeDmaData)
    (h : gdrom_dma_read gd n = some p) : DmaCompletionSpec gd p := by
  constructor
  · simp only [gdrom_dma_read] at h
    split at h
    · exact Option.noConfusion h
    · rename_i gd1 hg1
      split at h
      · exact Option.noConfusion h
      · rename_i hm
        split at h
        · rename_i hdone
          injection h with he
          subst he
          exact ⟨fun _ => hdone, fun _ => ⟨rfl, rfl, rfl, rfl, rfl, rfl, rfl⟩⟩
        · rename_i hnotdone
          injection h with he
          subst he
          have hstate : gd1.state ≠ GdState.readAtaCmd := by
            by_cases hcase : gd.dma_size ≤ gd.dma_head
            · rw [if_pos hcase] at hg1
              rcases gdrom_spi_cdread_state _ _ hg1 with h1 | h1 <;> simp [h1]
            · rw [if_neg hcase] at hg1
              injection hg1 with he2
              subst he2
              rw [hs]
              simp
          exact ⟨fun hl => absurd hl.1 hstate, fun hr => absurd hr hnotdone⟩
  · intro hex
    simp only [gdrom_dma_read] at h
    rw [if_pos hex] at h
    cases hcd : gdrom_spi_cdread gd with
    | none => rw [hcd] at h; exact Option.noConfusion h
    | some gd1 => rfl

/-- A state mid-way through a DMA CD_READ used to witness the amended C1. -/
def gd_c1_witness_pre : Gdrom :=
  { gdrom_init with state := GdState.writeDmaData, dma_size := 4 }

/-- Result of one 2-byte DMA read step from gd_c1_witness_pre. -/
def gd_c1_witness_post : Nat × Gdrom :=
  (gdrom_dma_read gd_c1_witness_pre 2).getD (0, gdrom_init)

theorem gdrom_dma_read_completion_witness :
    gd_c1_witness_pre.state = GdState.writeDmaData ∧
      DmaCompletionSpec gd_c1_witness_pre gd_c1_witness_post :=
  ⟨rfl, gdrom_dma_read_completion gd_c1_witness_pre 2 gd_c1_witness_post rfl rfl⟩

/-- After PACKET_CMD, the very first data-register write already violates the PIO
half of the claimed invariant (head = 2 while size is still 0). -/
def gd_c2_ops : List GdOp :=
  [GdOp.regWrite GdReg.statusCommand 0xa0, GdOp.regWrite GdReg.dataReg 0]

/-- C2 (counterexample): a guest-performable two-operation run after which
pio_head ≤ pio_size is false, refuting the invariant for the PIO buffer. -/
theorem gdrom_pio_buffer_invariant_cex :
    ((gdrom_run gd_c2_ops).map fun gd => decide (gd.pio_head ≤ gd.pio_size)) =
      some false := by
  decide

/-- C2 (amended): for the DMA buffer, 0 ≤ head ≤ size ≤ capacity holds after every
operation of every guest-performable sequence (register accesses, event dispatches, SPI
commands, DMA steps and disc attaches, starting from the initialized controller). -/
theorem gdrom_dma_buffer_invariant (ops : List GdOp) (gd : Gdrom)
    (h : gdrom_run ops = some gd) :
    gd.dma_head ≤ gd.dma_size ∧ gd.dma_size ≤ gd_dma_buffer_capacity :=
  DmaInv_run_from ops gdrom_init gd ⟨Nat.le_refl _, by decide⟩ h

/-- The state reached by gd_c2_ops, used to witness the amended C2. -/
def gd_c2_witness_state : Gdrom := (gdrom_run gd_c2_ops).getD gdrom_init

theorem gdrom_dma_buffer_invariant_witness :
    gd_c2_witness_state.dma_head ≤ gd_c2_witness_state.dma_size ∧
      gd_c2_witness_state.dma_size ≤ gd_dma_buffer_capacity :=
  gdrom_dma_buffer_invariant gd_c2_ops gd_c2_witness_state rfl

/-- Set a nonzero byte count, then issue ATA SOFT_RESET (which re-runs gdrom_set_disc on
the current, absent disc). -/
def gd_c3_ops : List GdOp :=
  [GdOp.regWrite GdReg.byctlLo 5, GdOp.regWrite GdReg.statusCommand 0x08]

/-- C3 (counterexample): a soft reset with no disc leaves drive status NODISC and the
error register zero, but the byte-count register keeps its prior value 5 — it is not
zeroed, refuting the claim as stated. -/
theorem gdrom_soft_reset_cex :
    ((gdrom_run gd_c3_ops).map fun gd => (gd.sectnum_status, gd.error, gd.byte_count)) =
      some (GD_STATUS_NODISC, 0, 5) := by
  decide

/-- What the disc-attach soft reset actually guarantees (the amended C3): with no disc,
drive status NODISC and a zero error register, the byte-count register left unchanged;
with a disc, drive status PAUSE, the format field equal to the disc's reported format,
and a zero error register. -/
def SoftResetSpec (gd : Gdrom) : Prop :=
  ((gdrom_set_disc gd none).sectnum_status = GD_STATUS_NODISC ∧
    (gdrom_set_disc gd none).error = 0 ∧
    (gdrom_set_disc gd none).byte_count = gd.byte_count) ∧
  (∀ d : Disc, (gdrom_set_disc gd (some d)).sectnum_status = GD_STATUS_PAUSE ∧
    (gdrom_set_disc gd (some d)).sectnum_format = d.format ∧
    (gdrom_set_disc gd (some d)).error = 0)

/-- C3 (amended): the soft reset performed by gdrom_set_disc yields NODISC/zero-error
with the byte-count register untouched when no disc is attached, and PAUSE plus the
disc's format when one is. -/
theorem gdrom_set_disc_soft_reset (gd : Gdrom) (hdisc : gd.disc = none) :
    SoftResetSpec gd :=
  ⟨⟨rfl, rfl, rfl⟩, fun _ => ⟨rfl, rfl, rfl⟩⟩

theorem gdrom_set_disc_soft_reset_witness :
    gdrom_init.disc = none ∧ SoftResetSpec gdrom_init :=
  ⟨rfl, gdrom_set_disc_soft_reset gdrom_init rfl⟩

/-- The chunking behaviour C4 claims of the sector reader, over the chunk-size trace:
exactly ceil(R/C) chunks, the i-th chunk of exactly min(remaining, C) sectors where
remaining = R - i*C, and the remaining count is driven exactly to 0 (the sizes sum
to R). -/
def CdreadChunkingSpec (R C : Nat) : Prop :=
  (cdreadChunks R C).length = (R + C - 1) / C ∧
  (∀ i, i < (cdreadChunks R C).length →
    (cdreadChunks R C).getD i 0 = min (R - i * C) C) ∧
  (cdreadChunks R C).sum = R

/-- The link between the abstract chunk trace and the code: every successful
gdrom_spi_cdread advances (cdr_first_sector, cdr_num_sectors) by exactly one cdreadStep
with the buffer capacity in sectors (identical for the DMA and PIO branches). -/
def CdreadStepLink : Prop :=
  ∀ gd gd' : Gdrom, gdrom_spi_cdread gd = some gd' →
    (gd'.cdr_first_sector, gd'.cdr_num_sectors) =
      cdreadStep gd_max_chunk_sectors (gd.cdr_first_sector, gd.cdr_num_sectors)

/-- C4: a CD_READ with R > 0 remaining sectors and a C-sector target buffer emits
exactly ceil(R/C) chunks of exactly min(remaining, C) sectors each, the remaining count
reaching exactly 0, and each gdrom_spi_cdread call performs exactly one such step on the
first-sector/remaining pair. -/
theorem gdrom_cdread_chunking (R C : Nat) (hR : 0 < R) (hC : 0 < C) :
    CdreadChunkingSpec R C ∧ CdreadStepLink := by
  constructor
  · exact ⟨cdreadChunks_length C hC R, fun i hi => cdreadChunks_getD C hC R i hi,
      cdreadChunks_sum C (by omega) R⟩
  · intro gd gd' hc
    simp only [gdrom_spi_cdread] at hc
    split at hc <;> split at hc <;>
    first
      | exact Option.noConfusion hc
      | (injection hc with he; subst he; rfl)

theorem gdrom_cdread_chunking_witness :
    0 < 5 ∧ 0 < 2 ∧ (CdreadChunkingSpec 5 2 ∧ CdreadStepLink) :=
  ⟨by decide, by decide, gdrom_cdread_chunking 5 2 (by decide) (by decide)⟩

/-- C5: event dispatch invokes exactly the handler of the fixed state times event table
or is fatal: the AtaCommand column maps to the ATA command handler in every one of the
five states, the table coincides with the section 4.1 transcription, a NULL entry makes
the dispatch fatal, and an AtaCommand event always runs gdrom_ata_cmd. -/
theorem gdrom_dispatch_table :
    (∀ s : GdState, gd_transitions s GdEvent.ataCmd = some GdHandler.ataCmd) ∧
    (∀ (s : GdState) (e : GdEvent), gd_transitions s e = spec41_transitions s e) ∧
    (∀ (gd : Gdrom) (ev : GdEvent) (arg : Nat),
      gd_transitions gd.state ev = none → gdrom_event gd ev arg = none) ∧
    (∀ (gd : Gdrom) (arg : Nat),
      gdrom_event gd GdEvent.ataCmd arg = gdrom_ata_cmd gd arg) := by
  refine ⟨?_, ?_, ?_, ?_⟩
  · intro s
    cases s <;> rfl
  · intro s e
    cases s <;> cases e <;> rfl
  · intro gd ev arg hnone
    simp only [gdrom_event, hnone]
  · intro gd arg
    cases hs : gd.state <;> simp [gdrom_event, gd_transitions, hs]

theorem gdrom_dispatch_table_witness :
    gd_transitions gdrom_init.state GdEvent.spiCmd = none ∧
      gdrom_event gdrom_init GdEvent.spiCmd 0 = none :=
  ⟨rfl, gdrom_dispatch_table.2.2.1 gdrom_init GdEvent.spiCmd 0 rfl⟩

/-- A controller awaiting packet decode with an attached disc and a REQ_SES packet whose
allocation length (byte 4) is 4. -/
def gd_c6_state : Gdrom :=
  { gdrom_init with disc := some gd_test_disc, state := GdState.readAtaData,
                    pio_head := 12,
                    pio_buffer := fun i => if i = 0 then 0x15 else if i = 4 then 4 else 0 }

/-- C6: the REQ_SES case passes sizeof(struct gd_spi_session) to gdrom_spi_write instead
of the caller-specified size it just read from packet byte 4 (the local `size` is dead),
so the started PIO write has length gd_spi_session_size, not 4. -/
theorem gdrom_req_ses_ignores_allocation_length :
    gd_c6_state.pio_buffer 0 = GD_SPI_REQ_SES ∧
    gd_c6_state.pio_buffer 4 = 4 ∧
    ((gdrom_spi_cmd gd_c6_state).map fun gd => (gd.pio_size, gd.byte_count)) =
      some (gd_spi_session_size, gd_spi_session_size) ∧
    gd_spi_session_size ≠ 4 := by
  decide

/-- C7: frame-address decoding returns a*4500 + b*75 + c in MSF mode and the raw
(a << 16) | (b << 8) | c address otherwise; in particular decode(0,2,0,msf=1) = 150 and
decode(1,0,0,msf=0) = 0x010000. -/
theorem gdrom_get_fad_spec :
    (∀ a b c : Nat, gdrom_get_fad a b c 1 = a * 4500 + b * 75 + c) ∧
    (∀ a b c : Nat, gdrom_get_fad a b c 0 =
      Nat.lor (Nat.lor (Nat.shiftLeft a 16) (Nat.shiftLeft b 8)) c) ∧
    gdrom_get_fad 0 2 0 1 = 150 ∧
    gdrom_get_fad 1 0 0 0 = 0x010000 := by
  refine ⟨fun a b c => ?_, fun a b c => ?_, by decide, by decide⟩
  · simp only [gdrom_get_fad]
    rw [if_pos (by decide : (1 : Nat) ≠ 0)]
    omega
  · simp only [gdrom_get_fad]
    rw [if_neg (by decide : ¬((0 : Nat) ≠ 0))]

/-- C8: an ATA NOP from any controller state clears the error register (leaving only the
abort bit it then sets, so error = 4 = ABRT), sets CHECK, and completes immediately:
DRDY set, BSY clear, interrupt raised, state back to ReadCommand, with no fatal
condition. -/
theorem gdrom_ata_nop_spec :
    ∀ gd : Gdrom, ∃ gd', gdrom_ata_cmd gd GD_ATA_NOP = some gd' ∧
      gd'.error = 4 ∧ gd'.status_check = true ∧ gd'.status_drdy = true ∧
      gd'.status_bsy = false ∧ gd'.intr = true ∧ gd'.state = GdState.readAtaCmd := by
  intro gd
  exact ⟨_, rfl, rfl, rfl, rfl, rfl, rfl, rfl⟩

/-- Every gdrom_spi_write resets the remaining CD_READ sector count to zero. -/
lemma gdrom_spi_write_cdr (gd : Gdrom) (sz : Nat) (gd' : Gdrom)
    (hw : gdrom_spi_write gd sz = some gd') : gd'.cdr_num_sectors = 0 := by
  simp only [gdrom_spi_write] at hw
  split at hw
  · injection hw with he
    subst he
    rfl
  · exact Option.noConfusion hw

/-- The SPI commands that start a PIO data transfer: the data-to-host commands plus
SET_MODE. -/
def gd_data_transfer_cmds : List Nat :=
  [GD_SPI_REQ_STAT, GD_SPI_REQ_MODE, GD_SPI_REQ_ERROR, GD_SPI_GET_TOC, GD_SPI_REQ_SES,
   GD_SPI_GET_SCD, GD_SPI_REQ_SECU, GD_SPI_SET_MODE]

/-- C9: every SPI command that starts a PIO data transfer (the data-to-host commands and
SET_MODE) resets the remaining CD_READ sector count to zero, and with a zero remaining
count a PIO read-exhaustion completes the SPI phase via gdrom_spi_end instead of
refilling from the disc. -/
theorem gdrom_spi_transfer_resets_cdread :
    (∀ gd gd' : Gdrom, gd.pio_buffer 0 ∈ gd_data_transfer_cmds →
      gdrom_spi_cmd gd = some gd' → gd'.cdr_num_sectors = 0) ∧
    (∀ gd : Gdrom, gd.cdr_num_sectors = 0 → gd.pio_head = gd.pio_size →
      gdrom_pio_read gd = some (gdrom_spi_end gd)) := by
  constructor
  · intro gd gd' hmem hc
    simp only [gd_data_transfer_cmds, List.mem_cons, List.mem_singleton,
      List.not_mem_nil, or_false,
      GD_SPI_REQ_STAT, GD_SPI_REQ_MODE, GD_SPI_REQ_ERROR, GD_SPI_GET_TOC, GD_SPI_REQ_SES,
      GD_SPI_GET_SCD, GD_SPI_REQ_SECU, GD_SPI_SET_MODE] at hmem
    simp only [gdrom_spi_cmd] at hc
    rcases hmem with h0 | h0 | h0 | h0 | h0 | h0 | h0 | h0 <;>
      rw [h0] at hc <;> simp at hc <;>
      first
        | exact gdrom_spi_write_cdr _ _ _ hc
        | exact hc ▸ rfl
        | (split at hc <;>
           first
             | exact Option.noConfusion hc
             | exact gdrom_spi_write_cdr _ _ _ hc)
  · intro gd h0 hsz
    simp [gdrom_pio_read, hsz, h0]

/-- A controller holding a REQ_MODE packet, witnessing the C9 reset. -/
def gd_c9_state : Gdrom :=
  { gdrom_init with pio_buffer := fun i => if i = 0 then 0x11 else 0 }

/-- The controller state after decoding the REQ_MODE packet of gd_c9_state. -/
def gd_c9_result : Gdrom := (gdrom_spi_cmd gd_c9_state).getD gdrom_init

theorem gdrom_spi_transfer_resets_cdread_witness :
    gd_c9_state.pio_buffer 0 ∈ gd_data_transfer_cmds ∧
      gd_c9_result.cdr_num_sectors = 0 :=
  ⟨by decide, gdrom_spi_transfer_resets_cdread.1 gd_c9_state gd_c9_result (by decide) rfl⟩

/-- C10: a DMA read step that can produce no bytes — the buffer is exhausted and the
refill yields zero bytes because no sectors remain or no disc is attached — fails the
CHECK_GT(n, 0) and is fatal (returns none) rather than handing 0 bytes back. -/
theorem gdrom_dma_read_empty_fatal (gd : Gdrom) (n : Nat)
    (hex : gd.dma_size ≤ gd.dma_head)
    (hempty : gd.cdr_num_sectors = 0 ∨ gd.disc = none) :
    gdrom_dma_read gd n = none := by
  simp only [gdrom_dma_read]
  rw [if_pos hex]
  cases hcd : gdrom_spi_cdread gd with
  | none => rfl
  | some gd1 =>
    have hsz : gd1.dma_size ≤ gd1.dma_head := by
      simp only [gdrom_spi_cdread] at hcd
      split at hcd
      · split at hcd
        · exact Option.noConfusion hcd
        · rename_i r hr
          injection hcd with he
          subst he
          show r ≤ 0
          rcases hempty with h0 | h0
          · rw [h0] at hr
            rw [(by simp : min 0 (gd_dma_buffer_capacity / DISC_MAX_SECTOR_SIZE) = 0)]
              at hr
            cases hd : gd.disc with
            | none =>
              rw [hd] at hr
              simp only [gdrom_read_sectors] at hr
              injection hr with he2
              omega
            | some d =>
              rw [hd] at hr
              simp only [gdrom_read_sectors, gdrom_read_sectors_loop] at hr
              injection hr with he2
              omega
          · rw [h0] at hr
            simp only [gdrom_read_sectors] at hr
            injection hr with he2
            omega
      · split at hcd
        · exact Option.noConfusion hcd
        · injection hcd with he
          subst he
          exact hex
    have hm : min n (gd1.dma_size - gd1.dma_head) = 0 := by omega
    simp [hm]

theorem gdrom_dma_read_empty_fatal_witness :
    gdrom_init.dma_size ≤ gdrom_init.dma_head ∧ gdrom_init.cdr_num_sectors = 0 ∧
      gdrom_dma_read gdrom_init 16 = none :=
  ⟨by decide, rfl, gdrom_dma_read_empty_fatal gdrom_init 16 (by decide) (Or.inl rfl)⟩
